import Mathlib

/-!
# Agrosilo time-series pipeline — verification of the ingestion/analytics core

Shallow embedding of `agrosilo-ts-pipeline/backend/app`:
* `thresholds.py` — the band classifier and airflow recommendation;
* `services.py` (`IngestService`) — spike filter, humidity/temperature status
  labels, aeration advice, assessment reference timestamp and deviation notes;
* `repositories.py` (`ReadingRepository.upsert_many`) — insert-only persistence
  keyed by (sensor, ts);
* `analysis/services.py` (`AnalysisService`) — 24h delta, time-weighted band
  breakdown, specific-date alignment.

Numeric values are modelled as `ℚ` (the Python code manipulates floats but all
constants and comparisons of interest are exact decimals); timestamps as `ℤ`
milliseconds since an arbitrary epoch except in the date-alignment section,
which works in whole minutes (its resampling steps are 5 minutes and 1 hour).
`int((cur.t - prev.t).total_seconds() * 1000)` on millisecond-precision UTC
datetimes is exactly the difference of the millisecond timestamps.
-/

namespace Agrosilo

/-! ## thresholds.py -/

/-- The four bands returned by `classify_value`
(`'normal' | 'caution' | 'warning' | 'critical'`). -/
inductive Band : Type
  | normal
  | caution
  | warning
  | critical
deriving DecidableEq, Repr

namespace HUM
/-- `HumidityBands.ideal_max = 13.0` (%). -/
def ideal_max : ℚ := 13
/-- `HumidityBands.moderate_max = 16.0` (%). -/
def moderate_max : ℚ := 16
end HUM

namespace TMP
/-- `TemperatureBands.moderate_min = 20.0` (°C). -/
def moderate_min : ℚ := 20
/-- `TemperatureBands.moderate_max = 30.0` (°C). -/
def moderate_max : ℚ := 30
/-- `TemperatureBands.critical_min = 40.0` (°C). -/
def critical_min : ℚ := 40
end TMP

namespace CARB
/-- `CO2Bands.ideal_min = 400` (ppm). -/
def ideal_min : ℚ := 400
/-- `CO2Bands.ideal_max = 600` (ppm). -/
def ideal_max : ℚ := 600
/-- `CO2Bands.moderate_min = 600` (ppm). -/
def moderate_min : ℚ := 600
/-- `CO2Bands.moderate_max = 1100` (ppm). -/
def moderate_max : ℚ := 1100
/-- `CO2Bands.critical_min = 5000` (ppm). -/
def critical_min : ℚ := 5000
end CARB

/-- Python's `str.lower()` on the ASCII sensor-type names the code deals in,
character by character. -/
def pyLower (s : String) : String := ⟨s.data.map Char.toLower⟩

/-- `thresholds.classify_value(sensor_type, v)`: lower-cases the sensor type and
walks the per-type `if` cascade; any unmatched type (e.g. pressure) is
`normal`. -/
def classify_value (sensor_type : String) (v : ℚ) : Band :=
  let st := pyLower sensor_type
  if st = "humidity" then
    if v ≤ HUM.ideal_max then .normal
    else if v ≤ HUM.moderate_max then .warning
    else .critical
  else if st = "temperature" then
    if v < TMP.moderate_min then .normal
    else if TMP.moderate_min ≤ v ∧ v ≤ TMP.moderate_max then .warning
    else if TMP.critical_min ≤ v then .critical
    else .normal
  else if st = "co2" then
    if CARB.ideal_min ≤ v ∧ v ≤ CARB.ideal_max then .normal
    else if CARB.moderate_min ≤ v ∧ v ≤ CARB.moderate_max then .warning
    else if CARB.critical_min ≤ v then .critical
    else .normal
  else .normal

/-- `thresholds.airflow_recommendation(humidity)`. -/
def airflow_recommendation (humidity : ℚ) : ℚ × ℚ :=
  if humidity < 13 then ((1 : ℚ)/10, (1 : ℚ)/4)
  else if humidity ≤ 15 then ((1 : ℚ)/4, (1 : ℚ)/2)
  else ((1 : ℚ)/2, 1)

/-! ## services.py — IngestService

Environment-configured thresholds use the code's defaults (the `_env_float`
fallbacks): `SOY_HUM_OK_MAX = 13`, `SOY_HUM_ADM_MAX = 14`,
`SOY_HUM_CRIT_MIN = 16`, `SOY_TEMP_OK_MAX = 15`, `SOY_TEMP_ALERT_MIN = 20`,
`SOY_TEMP_CRIT_MIN = 30`, `SOY_TEMP_VHIGH_MIN = 40`. -/

namespace IngestService

/-- `self.h_ok_max` (default of `SOY_HUM_OK_MAX`). -/
def h_ok_max : ℚ := 13
/-- `self.h_adm_max` (default of `SOY_HUM_ADM_MAX`). -/
def h_adm_max : ℚ := 14
/-- `self.h_crit_min` (default of `SOY_HUM_CRIT_MIN`). -/
def h_crit_min : ℚ := 16
/-- `self.t_ok_max` (default of `SOY_TEMP_OK_MAX`). -/
def t_ok_max : ℚ := 15
/-- `self.t_alert` (default of `SOY_TEMP_ALERT_MIN`). -/
def t_alert : ℚ := 20
/-- `self.t_crit` (default of `SOY_TEMP_CRIT_MIN`). -/
def t_crit : ℚ := 30
/-- `self.t_vhigh` (default of `SOY_TEMP_VHIGH_MIN`). -/
def t_vhigh : ℚ := 40

/-- `IngestService._hum_status(hum)`. -/
def hum_status (hum : ℚ) : String :=
  if hum < h_ok_max then "OK"
  else if hum ≤ h_adm_max then "ATENÇÃO"
  else if hum ≤ h_crit_min then "ALERTA"
  else "CRÍTICO"

/-- `IngestService._temp_status(t)`. -/
def temp_status (t : ℚ) : String :=
  if t < t_ok_max then "OK"
  else if t < t_alert then "ATENÇÃO"
  else if t ≤ t_crit then "ALERTA"
  else "CRÍTICO"

/-- `IngestService._aeration_advice(hum)`: the airflow tier bounds
`self.air_low/air_med/air_high` are environment-configured pairs, passed here
as arguments. -/
def aeration_advice (air_low air_med air_high : ℚ × ℚ) (hum : Option ℚ) :
    ℚ × ℚ × String :=
  match hum with
  | none => (0, 0, "Sem recomendação (umidade indisponível)")
  | some h =>
      if h < 13 then (air_low.1, air_low.2, "Aeração leve")
      else if 13 ≤ h ∧ h ≤ 15 then (air_med.1, air_med.2, "Aeração moderada")
      else (air_high.1, air_high.2, "Aeração intensiva")

/-- State threaded through `_sync_one`'s anti-spike loop: `prev_val` (the
reference), the last accepted value/timestamp and the accumulators. -/
structure SyncState : Type where
  prev_val : Option ℚ
  last_val : Option ℚ
  last_ts : Option ℤ
  dropped : ℕ
  cleaned : List (ℤ × ℚ)
deriving DecidableEq, Repr

/-- Loop state before the first iteration of `_sync_one`'s spike loop. -/
def syncInit : SyncState := ⟨none, none, none, 0, []⟩

/-- One iteration of `_sync_one`'s loop over the sorted parsed samples
`(ts, val)`: `if prev_val is not None and abs(val - prev_val) > spike`, count a
drop and touch nothing else; otherwise accept — the value becomes the
reference, the last accepted pair is updated, and the reading is appended to
`cleaned`. -/
def spikeStep (spike : ℚ) (s : SyncState) (tv : ℤ × ℚ) : SyncState :=
  if (match s.prev_val with
      | some pv => decide (|tv.2 - pv| > spike)
      | none => false) then
    { s with dropped := s.dropped + 1 }
  else
    { prev_val := some tv.2, last_val := some tv.2, last_ts := some tv.1,
      dropped := s.dropped, cleaned := s.cleaned ++ [tv] }

/-- The whole spike-filter loop of `_sync_one` on the sorted parsed samples. -/
def spike_filter (spike : ℚ) (parsed : List (ℤ × ℚ)) : SyncState :=
  parsed.foldl (spikeStep spike) syncInit

/-- The last-accepted observation of one `_sync_one` summary (`{"ts": …,
"value": …}` under the `"last"` key). -/
structure LastObs : Type where
  ts : ℤ
  value : ℚ
deriving DecidableEq, Repr

/-- `sync_all`'s reference-timestamp expression
`(t["last"]["ts"] or h["last"]["ts"]) if (t["last"] or h["last"]) else now`:
if temperature has a last observation its timestamp is returned (datetimes are
truthy, so the `or` never consults humidity); if only humidity has one, Python
evaluates `None["ts"]` and raises `TypeError` (modelled as `.error`); if
neither has one, the current instant is used. -/
def assessment_ref_ts (tLast hLast : Option LastObs) (now : ℤ) :
    Except String ℤ :=
  match tLast, hLast with
  | some o, _ => .ok o.ts
  | none, some _ => .error "TypeError: 'NoneType' object is not subscriptable"
  | none, none => .ok now

/-- `sync_all`'s deviation-note block: humidity ≥ `h_crit_min` appends the
critical note, else humidity > `h_adm_max` appends the moderate note;
temperature > `t_vhigh` appends the very-high note, else temperature >
`t_crit` appends the high note. -/
def assessment_notes (hum temp : Option ℚ) : List String :=
  (match hum with
   | none => []
   | some h =>
       if h_crit_min ≤ h then
         ["Umidade crítica: iniciar aeração intensiva e/ou secagem."]
       else if h_adm_max < h then
         ["Umidade acima do ideal: aeração moderada a intensiva."]
       else []) ++
  (match temp with
   | none => []
   | some t =>
       if t_vhigh < t then
         ["Temperatura muito alta (>40°C): risco severo de fungos."]
       else if t_crit < t then
         ["Temperatura alta (>30°C): risco de fungos/insetos."]
       else [])

end IngestService

/-! ## repositories.py — `ReadingRepository.upsert_many`

The store is the `readings` collection with its unique `{sensor, ts}` index:
a finite association of `(sensor, ts)` keys to values. Each bulk operation is
`updateOne` with `$setOnInsert` and `upsert=True`, i.e. a write at a present
key changes nothing and a write at an absent key inserts the document. -/

/-- A cleaned reading as persisted (`Reading(sensor_id, ts, value)`). -/
structure Reading : Type where
  sensor_id : String
  ts : ℤ
  value : ℚ
deriving DecidableEq, Repr

/-- The `(sensor, ts)` uniqueness key of a reading. -/
def Reading.key (r : Reading) : String × ℤ := (r.sensor_id, r.ts)

/-- The `readings` collection: stored documents, unique per `(sensor, ts)`. -/
abbrev ReadingStore := List ((String × ℤ) × ℚ)

/-- Whether the store already holds a document at key `k`. -/
def hasKey (store : ReadingStore) (k : String × ℤ) : Bool :=
  store.any (fun e => e.1 = k)

/-- One `updateOne(filter={sensor, ts}, update={$setOnInsert: …}, upsert=True)`
against the store: present key → no-op, absent key → insert. -/
def upsertOne (store : ReadingStore) (r : Reading) : ReadingStore :=
  if hasKey store r.key then store else store ++ [(r.key, r.value)]

/-- `ReadingRepository.upsert_many(readings)`: the batch of `$setOnInsert`
upserts, applied in order. -/
def upsert_many (store : ReadingStore) (readings : List Reading) :
    ReadingStore :=
  readings.foldl upsertOne store

/-! ## analysis/services.py — AnalysisService -/

/-- One analytics point (`Point(t=…, v=…)`): timestamp in ms, value. -/
structure Point : Type where
  t : ℤ
  v : ℚ
deriving DecidableEq, Repr

/-- The `BandBreakdown` DTO: accumulated milliseconds per band. -/
structure BandBreakdown : Type where
  normal_ms : ℤ
  caution_ms : ℤ
  warning_ms : ℤ
  critical_ms : ℤ
deriving DecidableEq, Repr

/-- The all-zero breakdown. -/
def BandBreakdown.zero : BandBreakdown := ⟨0, 0, 0, 0⟩

/-- `acc[bucket] += max(0, dt_ms)` for one consecutive pair. -/
def BandBreakdown.add (acc : BandBreakdown) (b : Band) (dt_ms : ℤ) :
    BandBreakdown :=
  match b with
  | .normal => { acc with normal_ms := acc.normal_ms + max 0 dt_ms }
  | .caution => { acc with caution_ms := acc.caution_ms + max 0 dt_ms }
  | .warning => { acc with warning_ms := acc.warning_ms + max 0 dt_ms }
  | .critical => { acc with critical_ms := acc.critical_ms + max 0 dt_ms }

/-- Sum of the four accumulators of a breakdown. -/
def BandBreakdown.total (b : BandBreakdown) : ℤ :=
  b.normal_ms + b.caution_ms + b.warning_ms + b.critical_ms

/-- The accumulator of one band (`acc[bucket]`). -/
def BandBreakdown.get (br : BandBreakdown) : Band → ℤ
  | .normal => br.normal_ms
  | .caution => br.caution_ms
  | .warning => br.warning_ms
  | .critical => br.critical_ms

/-- `AnalysisService._bands_time_weighted(sensor_type, points)`: fewer than two
points yields the zero breakdown; otherwise each consecutive pair
`points[i-1], points[i]` adds its elapsed milliseconds to the band of
`points[i-1].v` (step-hold). `points.zip points.tail` enumerates exactly the
pairs `(points[i-1], points[i])` for `i = 1 .. len-1`. -/
def bands_time_weighted (sensor_type : String) (points : List Point) :
    BandBreakdown :=
  if points.length < 2 then .zero
  else
    (points.zip points.tail).foldl
      (fun acc pc =>
        acc.add (classify_value sensor_type pc.1.v) (pc.2.t - pc.1.t))
      .zero

/-- 24 hours in milliseconds (`timedelta(hours=24)`). -/
def ms24h : ℤ := 86400000

/-- The `delta24` computation of `AnalysisService.summary`: `None` for an empty
series (the caller returns early); otherwise scan the points from the front and
on the first one with `p.t >= last.t - 24h` return `last.v - p.v`, `None` if
the scan falls through. -/
def delta24 (points : List Point) : Option ℚ :=
  match points.getLast? with
  | none => none
  | some lastP =>
      match points.find? (fun p => lastP.t - ms24h ≤ p.t) with
      | none => none
      | some p => some (lastP.v - p.v)

/-! ### `compare_specific_days`

Times in this section are whole minutes. For each requested date the code
takes the fetched window, optionally filters by weekday, re-expresses
timestamps relative to the center, resamples at the step and reindexes onto
the shared relative axis `date_range(-window_h, +window_h, freq=step)`; a
date with no fetched points yields `[None] * len(rel_axis)`. The response
labels are `[(i - len(rel_axis)//2) for i in range(len(rel_axis))]`.

The resample runs on a `TimedeltaIndex`, and pandas bins such an index from
its minimum (`_get_time_delta_bins` builds
`timedelta_range(start=ax.min(), end=ax.max(), freq)`), *not* from a
zero-anchored grid: bin `k` is the left-closed interval
`[min + k·step, min + (k+1)·step)` labelled `min + k·step`, an in-range bin
with no sample keeps a NaN mean, and the subsequent exact `reindex` onto the
axis (whose offsets are multiples of the step) finds a label only where
`min + k·step` equals an axis offset. -/

/-- The granularity parameter: `{"5min": "5min", "hour": "1H"}[gran]`. -/
inductive Gran : Type
  | five
  | hour
deriving DecidableEq, Repr

/-- Resampling step in minutes. -/
def Gran.step : Gran → ℤ
  | .five => 5
  | .hour => 60

/-- Number of entries of `rel_axis`: the inclusive range from `-window_h` to
`+window_h` hours at `step` minutes. -/
def axisLen (gran : Gran) (window_h : ℕ) : ℕ :=
  (2 * 60 * window_h) / gran.step.toNat + 1

/-- The shared relative axis, as offsets in minutes from the center date. -/
def relAxis (gran : Gran) (window_h : ℕ) : List ℤ :=
  (List.range (axisLen gran window_h)).map
    (fun i => -(60 * (window_h : ℤ)) + Int.ofNat i * gran.step)

/-- The response's `relHours` labels:
`[(i - len(rel_axis)//2) for i in range(len(rel_axis))]`. -/
def relHoursLabels (gran : Gran) (window_h : ℕ) : List ℤ :=
  (List.range (axisLen gran window_h)).map
    (fun i => Int.ofNat i - (axisLen gran window_h : ℤ) / 2)

/-- Python 3 `round` to an integer: round-half-to-even. -/
def pyRoundInt (q : ℚ) : ℤ :=
  if q - ⌊q⌋ < 1/2 then ⌊q⌋
  else if (1 : ℚ)/2 < q - ⌊q⌋ then ⌊q⌋ + 1
  else if ⌊q⌋ % 2 = 0 then ⌊q⌋ else ⌊q⌋ + 1

/-- `round(v, 2)`: round-half-to-even at two decimals. -/
def pyRound2 (q : ℚ) : ℚ := (pyRoundInt (q * 100) : ℚ) / 100

/-- `datetime.weekday()` for a timestamp in minutes since the Unix epoch
(1970-01-01 was a Thursday, weekday 3). -/
def dayOfWeek (t : ℤ) : ℤ := (t.fdiv 1440 + 3) % 7

/-- The resampling bin label of a relative offset `r`, with the bins anchored
at the index minimum `m` as pandas does for a `TimedeltaIndex`
(`timedelta_range(start=ax.min(), …)`): `m + step * floor((r - m) / step)`,
the label of the left-closed bin `[m + k·step, m + (k+1)·step)` holding
`r`. -/
def binOf (step : ℤ) (m : ℤ) (r : ℤ) : ℤ := m + step * ((r - m).fdiv step)

/-- The resampling origin: the minimum relative offset of the samples
(`ax.min()`); its value is irrelevant for an empty index. -/
def relMin (rel : List (ℤ × ℚ)) : ℤ := ((rel.map Prod.fst).min?).getD 0

/-- The reindexed value at axis offset `off` over relative samples
`(rel, v)`: the mean of the samples whose min-anchored bin label equals
`off`, rounded to two decimals; `none` when no sample's bin label is `off` —
whether because the bin at that label is empty (NaN mean), or because no
resample label equals `off` at all (offsets are matched exactly by
`reindex`, never interpolated). -/
def meanAt (step : ℤ) (rel : List (ℤ × ℚ)) (off : ℤ) : Option ℚ :=
  let g := rel.filter (fun p => binOf step (relMin rel) p.1 = off)
  if g.isEmpty then none
  else some (pyRound2 ((g.map Prod.snd).sum / (g.length : ℚ)))

/-- One requested date's aligned value array: `[None] * len(rel_axis)` when the
window fetched no points; otherwise weekday-filter, shift to relative offsets,
resample and reindex onto the shared axis. -/
def alignOneDate (gran : Gran) (window_h : ℕ) (weekday : Option ℤ)
    (center : ℤ) (data : List (ℤ × ℚ)) : List (Option ℚ) :=
  if data.isEmpty then List.replicate (axisLen gran window_h) none
  else
    let d1 := match weekday with
      | none => data
      | some w => data.filter (fun p => dayOfWeek p.1 = w)
    let rel := d1.map (fun p => (p.1 - center, p.2))
    (relAxis gran window_h).map (meanAt gran.step rel)

/-- The `{"relHours": …, "series": …}` response of `compare_specific_days`. -/
structure CompareOut : Type where
  relHours : List ℤ
  series : List (List (Option ℚ))
deriving DecidableEq, Repr

/-- `AnalysisService.compare_specific_days` over the parseable requested dates,
each given as its center timestamp (minutes) with the readings fetched in its
`± window_h` window. -/
def compare_specific_days (gran : Gran) (window_h : ℕ) (weekday : Option ℤ)
    (dates : List (ℤ × List (ℤ × ℚ))) : CompareOut :=
  { relHours := relHoursLabels gran window_h
    series := dates.map (fun d => alignOneDate gran window_h weekday d.1 d.2) }

/-! ## Theorems -/

theorem classify_value_humidity (v : ℚ) :
    classify_value "humidity" v =
      (if v ≤ HUM.ideal_max then .normal
       else if v ≤ HUM.moderate_max then .warning
       else .critical) := rfl

theorem classify_value_temperature (v : ℚ) :
    classify_value "temperature" v =
      (if v < TMP.moderate_min then .normal
       else if TMP.moderate_min ≤ v ∧ v ≤ TMP.moderate_max then .warning
       else if TMP.critical_min ≤ v then .critical
       else .normal) := rfl

theorem classify_value_co2 (v : ℚ) :
    classify_value "co2" v =
      (if CARB.ideal_min ≤ v ∧ v ≤ CARB.ideal_max then .normal
       else if CARB.moderate_min ≤ v ∧ v ≤ CARB.moderate_max then .warning
       else if CARB.critical_min ≤ v then .critical
       else .normal) := rfl

theorem classify_value_pressure (v : ℚ) :
    classify_value "pressure" v = .normal := rfl

/-- **C5.** The band classifier, on each sensor type: humidity is `normal` up
to `ideal_max`, `warning` up to `moderate_max`, `critical` above; temperature
is `normal` below `moderate_min`, `warning` on `[moderate_min, moderate_max]`,
`critical` at or above `critical_min`, and `normal` strictly between
`moderate_max` and `critical_min`; CO₂ is `normal` on
`[ideal_min, ideal_max]`, `warning` on `[moderate_min, moderate_max]`,
`critical` at or above `critical_min`, and `normal` otherwise — both below
`ideal_min` and strictly between `moderate_max` and `critical_min`; pressure
is always `normal`. -/
theorem classify_value_bands (v : ℚ) :
    ((v ≤ HUM.ideal_max → classify_value "humidity" v = .normal) ∧
     (HUM.ideal_max < v → v ≤ HUM.moderate_max →
        classify_value "humidity" v = .warning) ∧
     (HUM.moderate_max < v → classify_value "humidity" v = .critical)) ∧
    ((v < TMP.moderate_min → classify_value "temperature" v = .normal) ∧
     (TMP.moderate_min ≤ v → v ≤ TMP.moderate_max →
        classify_value "temperature" v = .warning) ∧
     (TMP.critical_min ≤ v → classify_value "temperature" v = .critical) ∧
     (TMP.moderate_max < v → v < TMP.critical_min →
        classify_value "temperature" v = .normal)) ∧
    ((CARB.ideal_min ≤ v → v ≤ CARB.ideal_max →
        classify_value "co2" v = .normal) ∧
     (¬ (CARB.ideal_min ≤ v ∧ v ≤ CARB.ideal_max) →
        CARB.moderate_min ≤ v → v ≤ CARB.moderate_max →
        classify_value "co2" v = .warning) ∧
     (CARB.critical_min ≤ v → classify_value "co2" v = .critical) ∧
     (v < CARB.ideal_min → classify_value "co2" v = .normal) ∧
     (CARB.moderate_max < v → v < CARB.critical_min →
        classify_value "co2" v = .normal)) ∧
    classify_value "pressure" v = .normal := by
  rw [classify_value_humidity, classify_value_temperature, classify_value_co2,
    classify_value_pressure]
  unfold HUM.ideal_max HUM.moderate_max TMP.moderate_min TMP.moderate_max
    TMP.critical_min CARB.ideal_min CARB.ideal_max CARB.moderate_min
    CARB.moderate_max CARB.critical_min
  refine ⟨⟨?_, ?_, ?_⟩, ⟨?_, ?_, ?_, ?_⟩, ⟨?_, ?_, ?_, ?_, ?_⟩, rfl⟩ <;>
    intros <;> split_ifs <;>
      first | rfl | (exfalso; linarith) | (exfalso; simp_all)

/-- Witness for C5 at `v = 25` (a temperature in the warning band). -/
theorem classify_value_bands_witness :
    classify_value "temperature" 25 = .warning :=
  (classify_value_bands 25).2.1.2.1 (by norm_num [TMP.moderate_min])
    (by norm_num [TMP.moderate_max])

theorem classify_value_ne_caution (st : String) (v : ℚ) :
    classify_value st v ≠ .caution := by
  unfold classify_value
  dsimp only
  split_ifs <;> simp

theorem add_caution_of_ne (acc : BandBreakdown) (b : Band) (dt : ℤ)
    (h : b ≠ .caution) : (acc.add b dt).caution_ms = acc.caution_ms := by
  cases b <;> simp_all [BandBreakdown.add]

theorem foldl_caution_ms (st : String) (l : List (Point × Point))
    (acc : BandBreakdown) :
    (l.foldl
        (fun acc pc =>
          acc.add (classify_value st pc.1.v) (pc.2.t - pc.1.t)) acc).caution_ms
      = acc.caution_ms := by
  induction l generalizing acc with
  | nil => rfl
  | cons pc l ih =>
      rw [List.foldl_cons, ih,
        add_caution_of_ne _ _ _ (classify_value_ne_caution st pc.1.v)]

/-- **C9.** The band classifier never returns `caution`, for any sensor-type
string and any value; consequently the time-weighted breakdown's
`caution_ms` is identically 0 — one of the four advertised bands is
unreachable. -/
theorem caution_band_unreachable :
    (∀ (st : String) (v : ℚ), classify_value st v ≠ .caution) ∧
    (∀ (st : String) (points : List Point),
      (bands_time_weighted st points).caution_ms = 0) := by
  refine ⟨classify_value_ne_caution, fun st points => ?_⟩
  unfold bands_time_weighted
  split
  · rfl
  · exact foldl_caution_ms st _ .zero

namespace IngestService

/-- **C1.** The spike filter: a sample arriving with the reference unset is
accepted (so the first sample always is, since the loop starts from
`syncInit` with `prev_val = none`); with a reference `pv` set, the sample is
dropped — counter incremented, reference, last-accepted pair and `cleaned`
untouched — exactly when `|value - pv| > spike`, and otherwise accepted,
becoming the new reference and the new last-accepted `(ts, value)`; on values
`[10, 11, 40, 12]` with threshold 10 the accepted values are `[10, 11, 12]`
and the dropped count is 1. -/
theorem spike_filter_spec (spike : ℚ) (s : SyncState) (tv : ℤ × ℚ) :
    (s.prev_val = none →
      spikeStep spike s tv =
        { prev_val := some tv.2, last_val := some tv.2, last_ts := some tv.1,
          dropped := s.dropped, cleaned := s.cleaned ++ [tv] }) ∧
    (∀ pv, s.prev_val = some pv →
      (|tv.2 - pv| > spike →
        spikeStep spike s tv = { s with dropped := s.dropped + 1 }) ∧
      (¬ |tv.2 - pv| > spike →
        spikeStep spike s tv =
          { prev_val := some tv.2, last_val := some tv.2,
            last_ts := some tv.1, dropped := s.dropped,
            cleaned := s.cleaned ++ [tv] })) ∧
    (spike_filter 10 [(0, 10), (1, 11), (2, 40), (3, 12)]
        = { prev_val := some 12, last_val := some 12, last_ts := some 3,
            dropped := 1, cleaned := [(0, 10), (1, 11), (3, 12)] }) := by
  refine ⟨fun h => ?_, fun pv h => ⟨fun hgt => ?_, fun hle => ?_⟩, ?_⟩
  · simp [spikeStep, h]
  · simp [spikeStep, h, hgt]
  · simp [spikeStep, h, hle]
  · simp only [spike_filter, List.foldl, spikeStep, syncInit]
    norm_num

/-- Witness for C1: the first sample (reference unset) is accepted. -/
theorem spike_filter_spec_witness :
    spikeStep 10 syncInit (0, 25) =
      { prev_val := some 25, last_val := some 25, last_ts := some 0,
        dropped := 0, cleaned := [(0, 25)] } :=
  (spike_filter_spec 10 syncInit (0, 25)).1 rfl

/-- **C8.** The aeration advisory is total over the optional humidity: absent
humidity yields the explicit no-recommendation result, and a known humidity
yields exactly one of the three tiers, each carrying that tier's configured
airflow bounds and its label. -/
theorem aeration_advice_total (air_low air_med air_high : ℚ × ℚ) :
    (aeration_advice air_low air_med air_high none =
      (0, 0, "Sem recomendação (umidade indisponível)")) ∧
    (∀ h : ℚ,
      aeration_advice air_low air_med air_high (some h) =
          (air_low.1, air_low.2, "Aeração leve") ∨
      aeration_advice air_low air_med air_high (some h) =
          (air_med.1, air_med.2, "Aeração moderada") ∨
      aeration_advice air_low air_med air_high (some h) =
          (air_high.1, air_high.2, "Aeração intensiva")) := by
  refine ⟨rfl, fun h => ?_⟩
  unfold aeration_advice
  dsimp only
  split_ifs <;> simp

/-- **C10.** At humidity exactly `h_crit_min` the status classifier returns
`ALERTA` (`CRÍTICO` requires humidity strictly above `h_crit_min`), while the
intensive-aeration critical note fires at humidity ≥ `h_crit_min`; so the
snapshot at that boundary carries the critical note with a non-critical
status. -/
theorem hum_status_boundary :
    hum_status h_crit_min = "ALERTA" ∧
    hum_status h_crit_min ≠ "CRÍTICO" ∧
    (∀ v : ℚ, hum_status v = "CRÍTICO" ↔ h_crit_min < v) ∧
    (∀ (v : ℚ) (temp : Option ℚ),
      "Umidade crítica: iniciar aeração intensiva e/ou secagem." ∈
          assessment_notes (some v) temp ↔ h_crit_min ≤ v) := by
  refine ⟨?_, ?_, fun v => ?_, fun v temp => ?_⟩
  · unfold hum_status h_ok_max h_adm_max h_crit_min
    norm_num
  · unfold hum_status h_ok_max h_adm_max h_crit_min
    norm_num
    decide
  · unfold hum_status h_ok_max h_adm_max h_crit_min
    split_ifs <;> simp_all <;> first | decide | linarith
  · unfold assessment_notes h_adm_max h_crit_min
    cases temp with
    | none =>
        dsimp only
        split_ifs <;> simp_all
    | some t =>
        dsimp only
        split_ifs <;> simp_all

/-- Witness for C10: at humidity exactly 16 (`h_crit_min`) with no
temperature, the critical note is present. -/
theorem hum_status_boundary_witness :
    "Umidade crítica: iniciar aeração intensiva e/ou secagem." ∈
        assessment_notes (some 16) none :=
  (hum_status_boundary.2.2.2 16 none).mpr (by norm_num [h_crit_min])

/-- **C3 counterexample.** With temperature's last accepted at `ts = 0` and
humidity's last accepted at the strictly later `ts = 3600000`, the reference
timestamp is temperature's `0`, not the most recent of the two. -/
theorem assessment_ref_ts_counterexample :
    assessment_ref_ts (some ⟨0, 20⟩) (some ⟨3600000, 15⟩) 99 = .ok 0 ∧
    ¬ assessment_ref_ts (some ⟨0, 20⟩) (some ⟨3600000, 15⟩) 99
        = .ok (max 0 3600000) := by
  constructor
  · rfl
  · intro h
    exact absurd (Except.ok.inj h) (by decide)

/-- **C3 (amended).** The assessment reference timestamp is temperature's
last-accepted timestamp whenever temperature has one (whether or not
humidity's is later); when only humidity's exists, evaluating
`t["last"]["ts"]` raises `TypeError`; when neither exists, it is the current
instant. -/
theorem assessment_ref_ts_spec (tLast hLast : Option LastObs) (now : ℤ) :
    (∀ o, tLast = some o → assessment_ref_ts tLast hLast now = .ok o.ts) ∧
    (tLast = none → ∀ o, hLast = some o →
      assessment_ref_ts tLast hLast now
        = .error "TypeError: 'NoneType' object is not subscriptable") ∧
    (tLast = none → hLast = none →
      assessment_ref_ts tLast hLast now = .ok now) := by
  refine ⟨fun o ht => ?_, fun ht o hh => ?_, fun ht hh => ?_⟩ <;>
    subst_vars <;> rfl

/-- Witness for C3 (amended), at a concrete temperature-only input. -/
theorem assessment_ref_ts_spec_witness :
    assessment_ref_ts (some ⟨5, 1⟩) none 7 = .ok 5 :=
  (assessment_ref_ts_spec (some ⟨5, 1⟩) none 7).1 ⟨5, 1⟩ rfl

end IngestService

theorem upsertOne_of_hasKey (store : ReadingStore) (r : Reading)
    (h : hasKey store r.key = true) : upsertOne store r = store := by
  simp [upsertOne, h]

theorem upsertOne_of_not_hasKey (store : ReadingStore) (r : Reading)
    (h : hasKey store r.key = false) :
    upsertOne store r = store ++ [(r.key, r.value)] := by
  simp [upsertOne, h]

theorem hasKey_upsertOne_mono (store : ReadingStore) (r : Reading)
    (k : String × ℤ) (h : hasKey store k = true) :
    hasKey (upsertOne store r) k = true := by
  unfold upsertOne
  split_ifs
  · exact h
  · unfold hasKey at h ⊢
    simp only [List.any_append, h, Bool.true_or]

theorem hasKey_upsertOne_self (store : ReadingStore) (r : Reading) :
    hasKey (upsertOne store r) r.key = true := by
  unfold upsertOne
  split_ifs with h
  · exact h
  · unfold hasKey
    simp

theorem hasKey_upsert_many_mono (l : List Reading) (store : ReadingStore)
    (k : String × ℤ) (h : hasKey store k = true) :
    hasKey (upsert_many store l) k = true := by
  induction l generalizing store with
  | nil => exact h
  | cons x xs ih =>
      exact ih (upsertOne store x) (hasKey_upsertOne_mono store x k h)

theorem hasKey_upsert_many_of_mem (l : List Reading) (store : ReadingStore)
    (r : Reading) (hr : r ∈ l) :
    hasKey (upsert_many store l) r.key = true := by
  induction l generalizing store with
  | nil => cases hr
  | cons x xs ih =>
      rcases List.mem_cons.mp hr with h | h
      · subst h
        exact hasKey_upsert_many_mono xs (upsertOne store r) r.key
          (hasKey_upsertOne_self store r)
      · exact ih (upsertOne store x) h

theorem upsert_many_of_all_hasKey (l : List Reading) (store : ReadingStore)
    (h : ∀ r ∈ l, hasKey store r.key = true) : upsert_many store l = store := by
  induction l generalizing store with
  | nil => rfl
  | cons x xs ih =>
      unfold upsert_many
      rw [List.foldl_cons,
        upsertOne_of_hasKey store x (h x (List.mem_cons_self x xs))]
      exact ih store (fun r hr => h r (List.mem_cons_of_mem x hr))

/-- **C4.** The reading write path is insert-only keyed by `(sensor, ts)`:
a write at a present key is a no-op, a write at an absent key appends the
document, and re-running a whole batch a second time changes nothing. -/
theorem upsert_many_insert_only (store : ReadingStore) (r : Reading)
    (batch : List Reading) :
    (hasKey store r.key = true → upsertOne store r = store) ∧
    (hasKey store r.key = false →
      upsertOne store r = store ++ [(r.key, r.value)]) ∧
    upsert_many (upsert_many store batch) batch = upsert_many store batch := by
  refine ⟨upsertOne_of_hasKey store r, upsertOne_of_not_hasKey store r, ?_⟩
  exact upsert_many_of_all_hasKey batch (upsert_many store batch)
    (fun x hx => hasKey_upsert_many_of_mem batch store x hx)

/-- Witness for C4 at a one-document store: re-writing the present key is a
no-op. -/
theorem upsert_many_insert_only_witness :
    upsertOne [(("s1", 0), 5)] ⟨"s1", 0, 99⟩ = [(("s1", 0), 5)] :=
  (upsert_many_insert_only [(("s1", 0), 5)] ⟨"s1", 0, 99⟩ []).1 (by decide)

/-- **C2 counterexample.** A two-point series spanning one hour — less than
24h — still gets a 24-hour delta: `8 - 5 = 3`, not an absent delta (the last
point itself always satisfies `p.t ≥ last.t - 24h`). -/
theorem delta24_counterexample :
    (⟨3600000, 8⟩ : Point).t - (⟨0, 5⟩ : Point).t < ms24h ∧
    delta24 [⟨0, 5⟩, ⟨3600000, 8⟩] = some 3 := by
  constructor
  · decide
  · simp [delta24, ms24h, List.find?]
    norm_num

/-- **C2 (amended).** For every non-empty point series, the 24-hour delta
equals the last point's value minus the value of the first point whose
timestamp is ≥ (last point's timestamp − 24h); such a point always exists
(the last point itself qualifies), so the delta is never absent — in
particular a series spanning less than 24 hours yields last value minus
first qualifying value rather than an absent delta. -/
theorem delta24_spec (points : List Point) (h : points ≠ []) :
    ∃ lastP firstRef,
      points.getLast? = some lastP ∧
      points.find? (fun p => lastP.t - ms24h ≤ p.t) = some firstRef ∧
      delta24 points = some (lastP.v - firstRef.v) := by
  have hl : points.getLast? = some (points.getLast h) :=
    List.getLast?_eq_getLast points h
  have hmem : points.getLast h ∈ points := List.getLast_mem h
  have hpred :
      (fun p => decide ((points.getLast h).t - ms24h ≤ p.t))
        (points.getLast h) = true := by
    simp only [decide_eq_true_eq]
    unfold ms24h
    omega
  have hsome :
      (points.find? (fun p => (points.getLast h).t - ms24h ≤ p.t)).isSome :=
    List.find?_isSome.mpr ⟨points.getLast h, hmem, hpred⟩
  obtain ⟨firstRef, hfind⟩ := Option.isSome_iff_exists.mp hsome
  refine ⟨points.getLast h, firstRef, hl, hfind, ?_⟩
  unfold delta24
  rw [hl]
  dsimp only
  rw [hfind]

/-- Witness for C2 (amended) on the one-hour series of the counterexample's
shape shifted to different values. -/
theorem delta24_spec_witness :
    ∃ lastP firstRef,
      ([⟨0, 2⟩, ⟨7200000, 9⟩] : List Point).getLast? = some lastP ∧
      ([⟨0, 2⟩, ⟨7200000, 9⟩] : List Point).find?
          (fun p => lastP.t - ms24h ≤ p.t) = some firstRef ∧
      delta24 [⟨0, 2⟩, ⟨7200000, 9⟩] = some (lastP.v - firstRef.v) :=
  delta24_spec [⟨0, 2⟩, ⟨7200000, 9⟩] (by simp)

theorem BandBreakdown.total_add (acc : BandBreakdown) (b : Band) (dt : ℤ) :
    (acc.add b dt).total = acc.total + max 0 dt := by
  cases b <;> simp [BandBreakdown.add, BandBreakdown.total] <;> ring

theorem bands_total_foldl (st : String) (l : List (Point × Point))
    (acc : BandBreakdown) :
    (l.foldl
        (fun acc pc => acc.add (classify_value st pc.1.v) (pc.2.t - pc.1.t))
        acc).total
      = acc.total + (l.map (fun pc => max 0 (pc.2.t - pc.1.t))).sum := by
  induction l generalizing acc with
  | nil => simp
  | cons pc l ih =>
      rw [List.foldl_cons, ih, BandBreakdown.total_add, List.map_cons,
        List.sum_cons]
      ring

theorem BandBreakdown.get_zero (b : Band) : BandBreakdown.zero.get b = 0 := by
  cases b <;> rfl

theorem BandBreakdown.get_add (acc : BandBreakdown) (b' b : Band) (dt : ℤ) :
    (acc.add b' dt).get b
      = acc.get b + (if b' = b then max 0 dt else 0) := by
  cases b' <;> cases b <;> simp [BandBreakdown.add, BandBreakdown.get]

theorem bands_get_foldl (st : String) (l : List (Point × Point))
    (acc : BandBreakdown) (b : Band) :
    (l.foldl
        (fun acc pc => acc.add (classify_value st pc.1.v) (pc.2.t - pc.1.t))
        acc).get b
      = acc.get b
        + ((l.filter (fun pc => classify_value st pc.1.v = b)).map
            (fun pc => max 0 (pc.2.t - pc.1.t))).sum := by
  induction l generalizing acc with
  | nil => simp
  | cons pc l ih =>
      rw [List.foldl_cons, ih, BandBreakdown.get_add]
      by_cases hb : classify_value st pc.1.v = b
      · rw [List.filter_cons_of_pos (by simp [hb]), List.map_cons,
          List.sum_cons, if_pos hb]
        ring
      · rw [List.filter_cons_of_neg (by simp [hb]), if_neg hb]
        ring

theorem zip_tail_telescope (p : Point) (l : List Point)
    (hc : List.Chain' (fun a b : Point => a.t ≤ b.t) (p :: l)) :
    ∃ lastP,
      (p :: l).getLast? = some lastP ∧
      (((p :: l).zip l).map (fun pc => max 0 (pc.2.t - pc.1.t))).sum
        = lastP.t - p.t := by
  induction l generalizing p with
  | nil => exact ⟨p, rfl, by simp⟩
  | cons q l ih =>
      have hpq : p.t ≤ q.t := (List.chain'_cons.mp hc).1
      have htail := (List.chain'_cons.mp hc).2
      obtain ⟨lastP, hL, hsum⟩ := ih q htail
      refine ⟨lastP, by rw [List.getLast?_cons_cons]; exact hL, ?_⟩
      rw [List.zip_cons_cons, List.map_cons, List.sum_cons, hsum]
      dsimp only
      rw [max_eq_right (sub_nonneg.mpr hpq)]
      omega

/-- **C6.** Time-weighted band breakdown: fewer than two points yields the
all-zero breakdown; each band's accumulated milliseconds are exactly the sum
of the gaps of the consecutive pairs whose *earlier* point's value classifies
into that band (step-hold attribution); and on an ascending series of at
least two points the four band totals sum to the span between the first and
last point. -/
theorem bands_time_weighted_spec (st : String) (points : List Point)
    (hsorted : List.Chain' (fun a b : Point => a.t ≤ b.t) points) :
    (points.length < 2 → bands_time_weighted st points = .zero) ∧
    (∀ b : Band,
      (bands_time_weighted st points).get b
        = (((points.zip points.tail).filter
              (fun pc => classify_value st pc.1.v = b)).map
            (fun pc => max 0 (pc.2.t - pc.1.t))).sum) ∧
    (2 ≤ points.length →
      ∃ firstP lastP,
        points.head? = some firstP ∧ points.getLast? = some lastP ∧
        (bands_time_weighted st points).total = lastP.t - firstP.t) := by
  refine ⟨?_, ?_, ?_⟩
  · intro h
    unfold bands_time_weighted
    rw [if_pos h]
  · intro b
    unfold bands_time_weighted
    split_ifs with hlen
    · cases points with
      | nil => simp [BandBreakdown.get_zero]
      | cons p rest =>
          cases rest with
          | nil => simp [BandBreakdown.get_zero]
          | cons q l => exact absurd hlen (by simp)
    · rw [bands_get_foldl]
      rw [BandBreakdown.get_zero, zero_add]
  · intro h2
    match points, hsorted, h2 with
    | p :: q :: l, hs, _ =>
      obtain ⟨lastP, hL, hsum⟩ := zip_tail_telescope p (q :: l) hs
      refine ⟨p, lastP, rfl, hL, ?_⟩
      unfold bands_time_weighted
      rw [if_neg (by simp)]
      rw [bands_total_foldl]
      simp only [List.tail_cons] at *
      simp only [BandBreakdown.zero, BandBreakdown.total] at *
      omega

/-- Witness for C6 on a concrete ascending two-point humidity series,
instantiating both the total-equals-span part and the step-hold attribution
at the `normal` band. -/
theorem bands_time_weighted_spec_witness :
    (∃ firstP lastP,
      ([⟨0, 1⟩, ⟨5, 2⟩] : List Point).head? = some firstP ∧
      ([⟨0, 1⟩, ⟨5, 2⟩] : List Point).getLast? = some lastP ∧
      (bands_time_weighted "humidity" [⟨0, 1⟩, ⟨5, 2⟩]).total
        = lastP.t - firstP.t) ∧
    (bands_time_weighted "humidity" [⟨0, 1⟩, ⟨5, 2⟩]).get .normal
      = (((([⟨0, 1⟩, ⟨5, 2⟩] : List Point).zip
              ([⟨0, 1⟩, ⟨5, 2⟩] : List Point).tail).filter
            (fun pc => classify_value "humidity" pc.1.v = Band.normal)).map
          (fun pc => max 0 (pc.2.t - pc.1.t))).sum :=
  ⟨(bands_time_weighted_spec "humidity" [⟨0, 1⟩, ⟨5, 2⟩]
      (by norm_num [List.chain'_cons])).2.2 (by norm_num),
   (bands_time_weighted_spec "humidity" [⟨0, 1⟩, ⟨5, 2⟩]
      (by norm_num [List.chain'_cons])).2.1 .normal⟩

theorem relAxis_length (gran : Gran) (window_h : ℕ) :
    (relAxis gran window_h).length = axisLen gran window_h := by
  simp [relAxis]

/-- **C7 counterexample.** With 5-minute granularity and a ±1-hour window, the
response's `relHours` labels are the bin indices `-12 … 12`, not the axis
offsets expressed in hours (`-1 … 1`): the labels are in hours only for the
hourly granularity. -/
theorem compare_relHours_counterexample :
    (relHoursLabels .five 1).map (fun i : ℤ => (i : ℚ))
      ≠ (relAxis .five 1).map (fun off : ℤ => (off : ℚ) / 60) := by
  intro h
  have h0 := congrArg List.head? h
  simp [relHoursLabels, relAxis, axisLen, Gran.step, List.range_succ_eq_map]
    at h0

/-- **C7 (amended).** Specific-date alignment: the shared axis and every
requested date's value array — including a date with no data in its window —
have the same length `axisLen`; a date with data is reindexed onto the shared
relative axis by the mean of the min-anchored resampling bins, and an axis
offset to which no sample's bin label resolves yields `none` (never an
interpolated value); the shared labels are the bin indices `i - len/2`
(hours for hourly granularity, 5-minute steps for 5-minute granularity). -/
theorem compare_specific_days_spec (gran : Gran) (window_h : ℕ)
    (wd : Option ℤ) (dates : List (ℤ × List (ℤ × ℚ))) :
    (compare_specific_days gran window_h wd dates).relHours.length
        = axisLen gran window_h ∧
    (compare_specific_days gran window_h wd dates).series.length
        = dates.length ∧
    (∀ s ∈ (compare_specific_days gran window_h wd dates).series,
        s.length = axisLen gran window_h) ∧
    (∀ (center : ℤ) (data : List (ℤ × ℚ)), data.isEmpty = false →
        alignOneDate gran window_h wd center data
          = (relAxis gran window_h).map
              (meanAt gran.step
                ((match wd with
                  | none => data
                  | some w =>
                      data.filter (fun p => dayOfWeek p.1 = w)).map
                  (fun p : ℤ × ℚ => (p.1 - center, p.2))))) ∧
    (∀ (step off : ℤ) (rel : List (ℤ × ℚ)),
        (rel.filter
            (fun p => binOf step (relMin rel) p.1 = off)).isEmpty = true →
        meanAt step rel off = none) := by
  refine ⟨?_, ?_, ?_, ?_, ?_⟩
  · simp [compare_specific_days, relHoursLabels]
  · simp [compare_specific_days]
  · intro s hs
    simp only [compare_specific_days, List.mem_map] at hs
    obtain ⟨d, _, rfl⟩ := hs
    unfold alignOneDate
    split_ifs
    · simp
    · simp [relAxis_length]
  · intro center data hne
    cases wd <;> simp [alignOneDate, hne]
  · intro step off rel hempty
    simp [meanAt, hempty]

/-- Witness for C7 (amended): one date with one reading at offset +10 min,
hourly granularity, ±1-hour window; the lone sample's bin label is `10`,
which matches no axis offset, so in particular axis offset `0` reindexes to
`none`. -/
theorem compare_specific_days_spec_witness :
    (([((10 : ℤ), (2 : ℚ))]).isEmpty = false ∧
     alignOneDate .hour 1 none 0 [(10, 2)]
       = (relAxis .hour 1).map
           (meanAt (Gran.step .hour)
             (([((10 : ℤ), (2 : ℚ))]).map
               (fun p : ℤ × ℚ => (p.1 - 0, p.2))))) ∧
    meanAt 60 [((10 : ℤ), (2 : ℚ))] 0 = none :=
  ⟨⟨rfl,
    (compare_specific_days_spec .hour 1 none [(0, [(10, 2)])]).2.2.2.1
      0 [(10, 2)] rfl⟩,
    (compare_specific_days_spec .hour 1 none [(0, [(10, 2)])]).2.2.2.2
      60 0 [(10, 2)] (by decide)⟩
